import Mathlib

/-! Formal model of the schema-binding and pagination-planning layer of the
graphql-compiler repository: the validated constructor
`make_sqlalchemy_schema_info` and the `QueryPlanningSchemaInfo` dataclass from
`schema/schema_info.py`, the helpers `merge_non_overlapping_dicts` and
`TriState` from `global_utils.py`, and the pagination reference scenario from
`tests/snapshot_tests/test_query_pagination.py`.

Python exceptions are modelled as `PyException` values carried in `Except`;
Python dicts are association lists whose `List.lookup` matches dict lookup
(keys are unique in every dict the code builds or receives). -/

/-- A raised Python exception: the exception class name and the message string.
Every validation failure in `schema_info.py` and `global_utils.py` raises
`AssertionError`; `TriState.__bool__` raises `ValueError`. -/
structure PyException where
  excType : String
  message : String
deriving DecidableEq, Repr

/-- The AssertionError raised by a failed check, as in `raise AssertionError(msg)`. -/
def assertion_error (msg : String) : PyException :=
  ⟨"AssertionError", msg⟩

/-- The parts of a sqlalchemy Table that this layer reads: the set of column
names exposed as `table.c`, and the column names of the table's primary key
(present on every sqlalchemy Table handle, possibly empty). -/
structure SQLTable where
  columns : List String
  primaryKey : List String
deriving DecidableEq, Repr

/-- A Python value stored in `vertex_name_to_table`: either an actual
sqlalchemy Table, or some other Python object recorded together with the
rendering of its Python type — `isinstance(table, sqlalchemy.Table)` is false
exactly on the second form. -/
inductive TableValue where
  | table (t : SQLTable)
  | other (pyType : String)
deriving DecidableEq, Repr

/-- One entry of `schema.type_map` as the validation traverses it: the type
name, whether the value is a GraphQLObjectType or GraphQLInterfaceType
(the `isinstance(graphql_type, types_to_map)` test), and the keys of the
type's `fields` dict in iteration order. -/
structure GraphQLTypeEntry where
  name : String
  isObjectOrInterface : Bool
  fields : List String
deriving DecidableEq, Repr

/-- The part of a GraphQLSchema that validation reads: `type_map` in
iteration order. -/
structure GraphQLSchema where
  type_map : List GraphQLTypeEntry
deriving DecidableEq, Repr

/-- The `DirectJoinDescriptor` namedtuple of `schema_info.py`: the column in
the source table and the column in the destination table to join on. -/
structure DirectJoinDescriptor where
  from_column : String
  to_column : String
deriving DecidableEq, Repr

/-- The `SQLAlchemySchemaInfo` namedtuple: the packaged schema info returned
by `make_sqlalchemy_schema_info`.  The dialect is kept as an opaque tag. -/
structure SQLAlchemySchemaInfo where
  schema : GraphQLSchema
  type_equivalence_hints : List (String × String)
  dialect : String
  vertex_name_to_table : List (String × TableValue)
  join_descriptors : List (String × List (String × DirectJoinDescriptor))
deriving DecidableEq, Repr

deriving instance DecidableEq for Except

/-- Python's `str.startswith`, computed over the character lists so that
concrete instances evaluate inside the kernel. -/
def py_startswith (s p : String) : Bool :=
  p.data.isPrefixOf s.data

/-- The `builtin_fields` set defined inside `make_sqlalchemy_schema_info`. -/
def builtin_fields : List String :=
  ["_x_count"]

/-- The inner field loop of `make_sqlalchemy_schema_info` (schema_info.py
lines 311-323), returning the first exception raised, if any.  `ivf` models
`is_vertex_field_name`, imported from `graphql_compiler.schema` (not among the
source files): the schema's edge-naming convention, kept as a parameter so
every result holds for an arbitrary convention. -/
def check_fields (ivf : String → Bool) (type_name : String)
    (join_descriptors : List (String × List (String × DirectJoinDescriptor)))
    (table : SQLTable) : List String → Option PyException
  | [] => none
  | field_name :: rest =>
    if ivf field_name then
      if (((join_descriptors.lookup type_name).getD []).lookup field_name).isNone then
        some (assertion_error ("No join descriptor was specified for vertex field "
          ++ field_name ++ " on type " ++ type_name))
      else check_fields ivf type_name join_descriptors table rest
    else
      if !(builtin_fields.contains field_name) && !(table.columns.contains field_name) then
        some (assertion_error ("Table for type " ++ type_name
          ++ " has no column for property field " ++ field_name))
      else check_fields ivf type_name join_descriptors table rest

/-- The type loop of `make_sqlalchemy_schema_info` (schema_info.py lines
298-323), returning the first exception raised, if any: for each object or
interface type other than `RootSchemaQuery` and the double-underscore
builtins, the table entry must exist, must be a sqlalchemy Table, and every
field must pass `check_fields`. -/
def check_types (ivf : String → Bool)
    (vertex_name_to_table : List (String × TableValue))
    (join_descriptors : List (String × List (String × DirectJoinDescriptor))) :
    List GraphQLTypeEntry → Option PyException
  | [] => none
  | gt :: rest =>
    if gt.isObjectOrInterface then
      if gt.name != "RootSchemaQuery" && !(py_startswith gt.name "__") then
        match vertex_name_to_table.lookup gt.name with
        | none => some (assertion_error ("Table for type " ++ gt.name ++ " not found"))
        | some (.other py) =>
          some (assertion_error ("Table for type " ++ gt.name ++ " has wrong type " ++ py))
        | some (.table tbl) =>
          match check_fields ivf gt.name join_descriptors tbl gt.fields with
          | some e => some e
          | none => check_types ivf vertex_name_to_table join_descriptors rest
      else check_types ivf vertex_name_to_table join_descriptors rest
    else check_types ivf vertex_name_to_table join_descriptors rest

/-- The public constructor `make_sqlalchemy_schema_info` (schema_info.py lines
250-327): when `validate` is true it runs the checks above and re-raises the
first failure; otherwise, and after a successful validation, it packages the
five arguments into a `SQLAlchemySchemaInfo` unchanged. -/
def make_sqlalchemy_schema_info (ivf : String → Bool) (schema : GraphQLSchema)
    (type_equivalence_hints : List (String × String)) (dialect : String)
    (vertex_name_to_table : List (String × TableValue))
    (join_descriptors : List (String × List (String × DirectJoinDescriptor)))
    (validate : Bool) : Except PyException SQLAlchemySchemaInfo :=
  if validate then
    match check_types ivf vertex_name_to_table join_descriptors schema.type_map with
    | some e => .error e
    | none =>
      .ok ⟨schema, type_equivalence_hints, dialect, vertex_name_to_table, join_descriptors⟩
  else
    .ok ⟨schema, type_equivalence_hints, dialect, vertex_name_to_table, join_descriptors⟩

/-- The violations the validator can detect, one constructor per raise site of
`make_sqlalchemy_schema_info`, carrying the offending type (and field) name. -/
inductive Violation where
  | missing_table (type_name : String)
  | wrong_table_type (type_name : String) (pyType : String)
  | missing_join_descriptor (type_name : String) (field_name : String)
  | missing_column (type_name : String) (field_name : String)
deriving DecidableEq, Repr

/-- The message text each violation is raised with. -/
def violation_message : Violation → String
  | .missing_table t => "Table for type " ++ t ++ " not found"
  | .wrong_table_type t py => "Table for type " ++ t ++ " has wrong type " ++ py
  | .missing_join_descriptor t f =>
      "No join descriptor was specified for vertex field " ++ f ++ " on type " ++ t
  | .missing_column t f =>
      "Table for type " ++ t ++ " has no column for property field " ++ f

/-- Analytic (collect-all) version of the field checks: the list of all field
violations of one type, in field iteration order, given the list of column
names available on the type's table entry. -/
def field_violations (ivf : String → Bool) (type_name : String)
    (join_descriptors : List (String × List (String × DirectJoinDescriptor)))
    (cols : List String) : List String → List Violation
  | [] => []
  | field_name :: rest =>
    (if ivf field_name then
      (if (((join_descriptors.lookup type_name).getD []).lookup field_name).isNone then
        [Violation.missing_join_descriptor type_name field_name]
      else [])
    else
      (if !(builtin_fields.contains field_name) && !(cols.contains field_name) then
        [Violation.missing_column type_name field_name]
      else []))
    ++ field_violations ivf type_name join_descriptors cols rest

/-- Whether a `type_map` entry is subject to validation: an object or
interface type other than the root query type and the double-underscore
builtins. -/
def is_mapped_type (gt : GraphQLTypeEntry) : Bool :=
  gt.isObjectOrInterface && (gt.name != "RootSchemaQuery") && !(py_startswith gt.name "__")

/-- Analytic (collect-all) version of the per-type checks: all violations one
type contributes, in the order the validator checks them. -/
def type_violations (ivf : String → Bool)
    (vertex_name_to_table : List (String × TableValue))
    (join_descriptors : List (String × List (String × DirectJoinDescriptor)))
    (gt : GraphQLTypeEntry) : List Violation :=
  if is_mapped_type gt then
    match vertex_name_to_table.lookup gt.name with
    | none => [Violation.missing_table gt.name]
    | some (.other py) => [Violation.wrong_table_type gt.name py]
    | some (.table tbl) => field_violations ivf gt.name join_descriptors tbl.columns gt.fields
  else []

/-- All violations of a candidate binding, in validator traversal order. -/
def check_violations (ivf : String → Bool)
    (vertex_name_to_table : List (String × TableValue))
    (join_descriptors : List (String × List (String × DirectJoinDescriptor)))
    (tm : List GraphQLTypeEntry) : List Violation :=
  tm.flatMap (type_violations ivf vertex_name_to_table join_descriptors)

example :
    check_fields (fun f => py_startswith f "out_") "Animal" [] ⟨["name"], ["name"]⟩
      ["name", "color"]
      = some (assertion_error "Table for type Animal has no column for property field color") :=
  by decide

example :
    make_sqlalchemy_schema_info (fun f => py_startswith f "out_")
      ⟨[⟨"Animal", true, ["name"]⟩]⟩ [] "postgresql"
      [("Animal", .table ⟨["name"], ["name"]⟩)] [] true
      = .ok ⟨⟨[⟨"Animal", true, ["name"]⟩]⟩, [], "postgresql",
          [("Animal", .table ⟨["name"], ["name"]⟩)], []⟩ :=
  by decide

/-- The columns a `vertex_name_to_table` value exposes: a genuine Table
exposes its columns; a non-Table value exposes none.  Used only by the
spec-side reading of the validator contract. -/
def table_value_columns : TableValue → List String
  | .table t => t.columns
  | .other _ => []

/-- Second definition, following the words of the spec (section 4.2, the three
listed validator requirements): the violations of the three kinds the spec
lists for a binding — missing table entry, vertex field without join
descriptor, non-builtin property field without a same-named column.  A
wrongly-typed table entry is deliberately not among them, mirroring the
spec text, so it can be compared against `check_violations`. -/
def spec_listed_violations (ivf : String → Bool)
    (vertex_name_to_table : List (String × TableValue))
    (join_descriptors : List (String × List (String × DirectJoinDescriptor)))
    (tm : List GraphQLTypeEntry) : List Violation :=
  tm.flatMap (fun gt =>
    if is_mapped_type gt then
      match vertex_name_to_table.lookup gt.name with
      | none => [Violation.missing_table gt.name]
      | some tv =>
          field_violations ivf gt.name join_descriptors (table_value_columns tv) gt.fields
    else [])

/-- Replace every table's primary key by the empty one, leaving everything
else (entries, columns, non-Table values) unchanged. -/
def strip_primary_keys (tables : List (String × TableValue)) :
    List (String × TableValue) :=
  tables.map (fun p => (p.1, match p.2 with
    | .table t => .table ⟨t.columns, []⟩
    | .other py => .other py))

/-- The in-place dict assignment `result[key] = value`: replace the pair if
the key is present, append otherwise (so a later assignment wins, as in a
Python dict). -/
def dict_setitem {V : Type} (d : List (String × V)) (key : String) (value : V) :
    List (String × V) :=
  if (d.lookup key).isSome then
    d.map (fun p => if p.1 == key then (key, value) else p)
  else d ++ [(key, value)]

/-- The loop of `merge_non_overlapping_dicts` (global_utils.py lines 9-15):
iterate `new_data`; raise on any key already present in `merge_target`,
otherwise assign into the accumulating copy.  `reprV` renders a value the way
`str.format` would, for the message text. -/
def merge_loop {V : Type} (reprV : V → String) (merge_target : List (String × V)) :
    List (String × V) → List (String × V) → Except PyException (List (String × V))
  | result, [] => .ok result
  | result, (key, value) :: rest =>
    match merge_target.lookup key with
    | some v0 => .error (assertion_error ("Overlapping key \"" ++ key
        ++ "\" found in dicts that are supposed to not overlap. Values: "
        ++ reprV v0 ++ " " ++ reprV value))
    | none => merge_loop reprV merge_target (dict_setitem result key value) rest

/-- The function `merge_non_overlapping_dicts` (global_utils.py lines 5-17):
start from a copy of `merge_target` (the inputs themselves are never
mutated), then run the loop above. -/
def merge_non_overlapping_dicts {V : Type} (reprV : V → String)
    (merge_target new_data : List (String × V)) :
    Except PyException (List (String × V)) :=
  merge_loop reprV merge_target merge_target new_data

/-- The first key of `new_data` (in iteration order) that already occurs in
`merge_target`, together with both values — the collision the loop reports. -/
def first_overlap {V : Type} (merge_target : List (String × V)) :
    List (String × V) → Option (String × V × V)
  | [] => none
  | (key, value) :: rest =>
    match merge_target.lookup key with
    | some v0 => some (key, v0, value)
    | none => first_overlap merge_target rest

/-- The Python values relevant to `TriState`: booleans, `None`, ints and
strings (enough to express the constructor's membership test and its
violations). -/
inductive PyValue where
  | bool (b : Bool)
  | none
  | int (n : Int)
  | str (s : String)
deriving DecidableEq, Repr

/-- Python `==` on the values above: `bool` is an `int` subclass, so numeric
comparison identifies `True` with `1` and `False` with `0`; values of
unrelated types compare unequal.  The membership test `value in [...]` of
`TriState.__init__` is a disjunction of such comparisons. -/
def py_eq : PyValue → PyValue → Bool
  | .bool a, .bool b => a == b
  | .bool a, .int b => (if a then (1 : Int) else 0) == b
  | .int a, .bool b => a == (if b then (1 : Int) else 0)
  | .int a, .int b => a == b
  | .none, .none => true
  | .str a, .str b => a == b
  | _, _ => false

/-- A constructed `TriState` instance: the `_value` attribute stored by
`__init__` and returned unchanged by the `value` property. -/
structure TriState where
  value : PyValue
deriving DecidableEq, Repr

/-- `TriState.__init__` (global_utils.py lines 23-34): raise AssertionError
unless `value in [True, False, None]` (Python `in`, i.e. `==` against each
element), then store the value as given. -/
def TriState.init (value : PyValue) : Except PyException TriState :=
  if [PyValue.bool true, PyValue.bool false, PyValue.none].any (fun x => py_eq value x) then
    .ok ⟨value⟩
  else
    .error (assertion_error "Tristate value must be either True, False, or None.")

/-- `TriState.__bool__` (global_utils.py lines 41-43): truth-value testing
unconditionally raises ValueError, whatever the stored value. -/
def TriState.bool (_t : TriState) : Except PyException Bool :=
  .error ⟨"ValueError", "Cannot implicitly convert Tristate to a boolean."⟩

/-- The `EdgeConstraint` enum of schema_info.py (lines 330-337). -/
inductive EdgeConstraint where
  | AtLeastOneSource
  | AtMostOneSource
  | AtLeastOneDestination
  | AtMostOneDestination
deriving DecidableEq, Repr

/-- The part of a SchemaGraph this layer could consult: its vertex names and
edge names.  The `QueryPlanningSchemaInfo` dataclass stores the handle
without reading it. -/
structure SchemaGraph where
  vertex_names : List String
  edge_names : List String
deriving DecidableEq, Repr

/-- A Statistics object reduced to what this layer uses: the per-class counts
a `LocalStatistics` is built from. -/
structure Statistics where
  count_data : List (String × Nat)
deriving DecidableEq, Repr

/-- The `QueryPlanningSchemaInfo` dataclass (schema_info.py lines 340-388). -/
structure QueryPlanningSchemaInfo where
  schema : GraphQLSchema
  type_equivalence_hints : List (String × String)
  schema_graph : SchemaGraph
  statistics : Statistics
  pagination_keys : List (String × String)
  uuid4_fields : List (String × List String)
  edge_constraints : List (String × List EdgeConstraint)
deriving DecidableEq, Repr

/-- The generated `__init__` of the `@dataclass QueryPlanningSchemaInfo`:
plain field assignment in declaration order.  The class declares no
`__post_init__` and no validators anywhere in its body (schema_info.py lines
340-388 hold only fields and comments), so construction cannot raise. -/
def QueryPlanningSchemaInfo.init (schema : GraphQLSchema)
    (type_equivalence_hints : List (String × String)) (schema_graph : SchemaGraph)
    (statistics : Statistics) (pagination_keys : List (String × String))
    (uuid4_fields : List (String × List String))
    (edge_constraints : List (String × List EdgeConstraint)) :
    Except PyException QueryPlanningSchemaInfo :=
  .ok ⟨schema, type_equivalence_hints, schema_graph, statistics, pagination_keys,
       uuid4_fields, edge_constraints⟩

/-- Following the words of claim C4 and spec section 4.3: every key of
`pagination_keys` and of `uuid4_fields` is a valid vertex name of the schema
graph, and every key of `edge_constraints` is a valid edge name. -/
def query_planning_names_resolve (info : QueryPlanningSchemaInfo) : Bool :=
  info.pagination_keys.all (fun p => info.schema_graph.vertex_names.contains p.1) &&
  info.uuid4_fields.all (fun p => info.schema_graph.vertex_names.contains p.1) &&
  info.edge_constraints.all (fun p => info.schema_graph.edge_names.contains p.1)

/-- A query AST as the pagination scenario observes it: the root vertex type,
the filter directives present on fields of the root vertex (field name,
operator, referenced parameter name), and the output directives (field name,
output name). -/
structure GraphQLQueryAST where
  root_vertex : String
  filters : List (String × String × String)
  outputs : List (String × String)
deriving DecidableEq, Repr

/-- The `QueryAndParameters` namedtuple of `graphql_compiler.query_pagination`
as used by the snapshot test: a query together with its parameter map. -/
structure QueryAndParameters where
  query : GraphQLQueryAST
  parameters : List (String × String)
deriving DecidableEq, Repr

/-- Modelled from the spec: the pagination planner entry point
`paginate_query` of `graphql_compiler.query_pagination`, whose body is not
among the source files (only its snapshot test is).  Per the spec's design
notes the reference implementation "had not yet implemented the splitting
algorithm at the time of writing (it raised a not-implemented condition)",
which `test_basic_pagination` pins down with
`assertRaises(NotImplementedError)`: the call raises unconditionally. -/
def paginate_query (_schema_graph : SchemaGraph) (_statistics : Statistics)
    (_query : GraphQLQueryAST) (_parameters : List (String × String))
    (_page_size : Nat) : Except PyException (List QueryAndParameters) :=
  .error ⟨"NotImplementedError", ""⟩

/-- The query of `test_basic_pagination`: root vertex `Animal`, no filters,
one output `name -> animal`. -/
def test_ast : GraphQLQueryAST :=
  ⟨"Animal", [], [("name", "animal")]⟩

/-- The statistics of `test_basic_pagination`: `LocalStatistics` over
`count_data` mapping Animal to 4. -/
def test_statistics : Statistics :=
  ⟨[("Animal", 4)]⟩

/-- A schema graph holding the scenario's root vertex (the test builds its
schema graph from an OrientDB fixture; only the presence of `Animal` matters
to the scenario). -/
def test_schema_graph : SchemaGraph :=
  ⟨["Animal"], []⟩

/-- The literal UUID chunk boundary of the reference scenario. -/
def first_uuid_cut : String :=
  "40000000-0000-0000-0000-000000000000"

/-- The `expected_query_list` of `test_basic_pagination` (the reference
output the test says the planner should produce once implemented): exactly
two sub-queries.  The first adds the filter
`uuid @filter(op_name: "<", value: ["$_paged_upper_param_on_Animal_uuid"])`
with the parameter bound to the boundary value; the second adds
`uuid @filter(op_name: ">=", value: ["$_paged_lower_param_on_Animal_uuid"])`
with the same boundary and no upper-bound filter. -/
def expected_query_list : List QueryAndParameters :=
  [⟨⟨"Animal", [("uuid", "<", "_paged_upper_param_on_Animal_uuid")], [("name", "animal")]⟩,
    [("_paged_upper_param_on_Animal_uuid", first_uuid_cut)]⟩,
   ⟨⟨"Animal", [("uuid", ">=", "_paged_lower_param_on_Animal_uuid")], [("name", "animal")]⟩,
    [("_paged_lower_param_on_Animal_uuid", first_uuid_cut)]⟩]

/-- An uppercase hexadecimal digit. -/
def hex_digit (n : Nat) : Char :=
  if n < 10 then Char.ofNat (48 + n) else Char.ofNat (55 + n)

/-- The `w` low hexadecimal digits of `n`, most significant first. -/
def nat_to_hex : Nat → Nat → List Char
  | 0, _ => []
  | w + 1, n => nat_to_hex w (n / 16) ++ [hex_digit (n % 16)]

/-- Render a number below 2^128 in the textual 8-4-4-4-12 UUID format. -/
def uuid_of_nat (n : Nat) : String :=
  let d := nat_to_hex 32 n
  ⟨d.take 8⟩ ++ "-" ++ ⟨(d.drop 8).take 4⟩ ++ "-" ++ ⟨(d.drop 12).take 4⟩
    ++ "-" ++ ⟨(d.drop 16).take 4⟩ ++ "-" ++ ⟨d.drop 20⟩

example : uuid_of_nat (2 ^ 128 / 4) = first_uuid_cut := by decide

lemma check_fields_eq (ivf : String → Bool) (tn : String)
    (joins : List (String × List (String × DirectJoinDescriptor)))
    (tbl : SQLTable) (fl : List String) :
    check_fields ivf tn joins tbl fl =
      (field_violations ivf tn joins tbl.columns fl).head?.map
        (fun v => assertion_error (violation_message v)) := by
  induction fl with
  | nil => rfl
  | cons f rest ih =>
    simp only [check_fields, field_violations]
    cases h1 : ivf f with
    | true =>
      cases h2 : (((joins.lookup tn).getD []).lookup f).isNone with
      | true => simp [h1, h2, violation_message]
      | false => simp [h1, h2, ih]
    | false =>
      cases h2 : !(builtin_fields.contains f) && !(tbl.columns.contains f) with
      | true => simp [h1, h2, violation_message]
      | false => simp [h1, h2, ih]

lemma check_types_eq (ivf : String → Bool)
    (tables : List (String × TableValue))
    (joins : List (String × List (String × DirectJoinDescriptor)))
    (tm : List GraphQLTypeEntry) :
    check_types ivf tables joins tm =
      (check_violations ivf tables joins tm).head?.map
        (fun v => assertion_error (violation_message v)) := by
  induction tm with
  | nil => rfl
  | cons gt rest ih =>
    simp only [check_types, check_violations, List.flatMap_cons, type_violations,
      is_mapped_type]
    by_cases h1 : gt.isObjectOrInterface = true
    case neg => simpa [h1] using ih
    by_cases h2 : (gt.name != "RootSchemaQuery" && !(py_startswith gt.name "__")) = true
    case neg => simpa [h1, h2] using ih
    cases h3 : tables.lookup gt.name with
    | none => simp [h1, h2, h3, violation_message]
    | some tv =>
      cases tv with
      | other py => simp [h1, h2, h3, violation_message]
      | table tbl =>
        simp only [h1, h2, h3, Bool.true_and, if_true, check_fields_eq]
        cases h4 : field_violations ivf gt.name joins tbl.columns gt.fields with
        | nil => simpa [h4] using ih
        | cons v vs => simp [h4]

lemma make_validate_eq (ivf : String → Bool) (schema : GraphQLSchema)
    (hints : List (String × String)) (dialect : String)
    (tables : List (String × TableValue))
    (joins : List (String × List (String × DirectJoinDescriptor))) :
    make_sqlalchemy_schema_info ivf schema hints dialect tables joins true =
      match check_violations ivf tables joins schema.type_map with
      | [] => .ok ⟨schema, hints, dialect, tables, joins⟩
      | v :: _ => .error (assertion_error (violation_message v)) := by
  simp only [make_sqlalchemy_schema_info, if_true, check_types_eq]
  cases check_violations ivf tables joins schema.type_map with
  | nil => rfl
  | cons v vs => rfl

lemma lookup_strip_primary_keys (tables : List (String × TableValue)) (k : String) :
    (strip_primary_keys tables).lookup k
      = (tables.lookup k).map (fun tv => match tv with
          | .table t => .table ⟨t.columns, []⟩
          | .other py => .other py) := by
  induction tables with
  | nil => rfl
  | cons p rest ih =>
    cases p with
    | mk k0 tv =>
      simp only [strip_primary_keys, List.map_cons, List.lookup]
      by_cases h : (k == k0) = true
      · simp [h]
      · simp only [Bool.not_eq_true] at h
        simp [h, ← ih, strip_primary_keys]

lemma check_violations_strip (ivf : String → Bool)
    (tables : List (String × TableValue))
    (joins : List (String × List (String × DirectJoinDescriptor)))
    (tm : List GraphQLTypeEntry) :
    check_violations ivf (strip_primary_keys tables) joins tm
      = check_violations ivf tables joins tm := by
  unfold check_violations
  induction tm with
  | nil => rfl
  | cons gt rest ih =>
    simp only [List.flatMap_cons, ih]
    congr 1
    unfold type_violations
    rw [lookup_strip_primary_keys]
    cases h : tables.lookup gt.name with
    | none => rfl
    | some tv => cases tv <;> rfl

/-- Claim C5 (confirmed): with `validate=false`, `make_sqlalchemy_schema_info`
performs no validation and unconditionally succeeds — whatever the tables,
columns or join descriptors — returning a `SQLAlchemySchemaInfo` whose fields
are exactly the five arguments provided (the Python code stores the argument
references themselves; in this pure model that is field-for-field equality). -/
theorem make_sqlalchemy_schema_info_no_validate_packages_args
    (ivf : String → Bool) (schema : GraphQLSchema) (hints : List (String × String))
    (dialect : String) (tables : List (String × TableValue))
    (joins : List (String × List (String × DirectJoinDescriptor))) :
    make_sqlalchemy_schema_info ivf schema hints dialect tables joins false
      = .ok ⟨schema, hints, dialect, tables, joins⟩ :=
  rfl

/-- Claim C7 (confirmed): validation is a pure pass that either returns the
packaged schema info (valid binding) or reports exactly the first violation
in traversal order — never an aggregate, and never a partially constructed
schema info: the error branch carries only the exception. -/
theorem validation_fail_fast_first_violation (ivf : String → Bool)
    (schema : GraphQLSchema) (hints : List (String × String)) (dialect : String)
    (tables : List (String × TableValue))
    (joins : List (String × List (String × DirectJoinDescriptor))) :
    make_sqlalchemy_schema_info ivf schema hints dialect tables joins true
      = match check_violations ivf tables joins schema.type_map with
        | [] => .ok ⟨schema, hints, dialect, tables, joins⟩
        | v :: _ => .error (assertion_error (violation_message v)) :=
  make_validate_eq ivf schema hints dialect tables joins

/-- Claim C1, counterexample: a binding with a single eligible type `Animal`
whose `vertex_name_to_table` entry exists but is not a sqlalchemy Table (here
a value of Python type `dict`), and whose only field is the builtin
`_x_count`, has none of the three violation kinds the claim lists
(`spec_listed_violations` is empty) — yet construction with `validate=true`
fails, with the wrong-type error of schema_info.py lines 305-308.  This
refutes the claim's "if none of these violations exist, construction
succeeds". -/
theorem validate_true_fails_without_listed_violation :
    spec_listed_violations (fun f => py_startswith f "out_")
        [("Animal", TableValue.other "dict")] [] [⟨"Animal", true, ["_x_count"]⟩] = []
    ∧ make_sqlalchemy_schema_info (fun f => py_startswith f "out_")
        ⟨[⟨"Animal", true, ["_x_count"]⟩]⟩ [] "postgresql"
        [("Animal", TableValue.other "dict")] [] true
      = .error (assertion_error "Table for type Animal has wrong type dict") := by
  exact ⟨by decide, by decide⟩

/-- Claim C1 as amended (proved): with the wrongly-typed-entry check added as
a fourth violation kind, validation with `validate=true` succeeds and returns
the packaged schema info exactly when the binding has no violation of the
four kinds; and whenever violations exist, it fails with the error of the
first one in traversal order, whose message names that violation's type (and,
for field violations, its field), per `violation_message`. -/
theorem validate_true_succeeds_iff_no_violation (ivf : String → Bool)
    (schema : GraphQLSchema) (hints : List (String × String)) (dialect : String)
    (tables : List (String × TableValue))
    (joins : List (String × List (String × DirectJoinDescriptor))) :
    (make_sqlalchemy_schema_info ivf schema hints dialect tables joins true
        = .ok ⟨schema, hints, dialect, tables, joins⟩
      ↔ check_violations ivf tables joins schema.type_map = [])
    ∧ (∀ v vs, check_violations ivf tables joins schema.type_map = v :: vs →
        make_sqlalchemy_schema_info ivf schema hints dialect tables joins true
          = .error (assertion_error (violation_message v))) := by
  constructor
  · rw [make_validate_eq]
    cases h : check_violations ivf tables joins schema.type_map with
    | nil => simp
    | cons v vs => simp
  · intro v vs h
    rw [make_validate_eq, h]

/-- Witness for the amended claim C1, at a binding whose first violation is a
missing table. -/
theorem validate_true_succeeds_iff_no_violation_witness :
    make_sqlalchemy_schema_info (fun f => py_startswith f "out_")
        ⟨[⟨"Animal", true, ["name"]⟩]⟩ [] "postgresql" [] [] true
      = .error (assertion_error (violation_message (Violation.missing_table "Animal"))) :=
  (validate_true_succeeds_iff_no_violation (fun f => py_startswith f "out_")
      ⟨[⟨"Animal", true, ["name"]⟩]⟩ [] "postgresql" [] []).2
    (Violation.missing_table "Animal") [] (by decide)

/-- Claim C3, counterexample: a binding whose only type has a table entry and
all fields backed by same-named columns, but whose table declares no primary
key (`primaryKey = []`), is accepted by construction with `validate=true` —
refuting the claim that such a binding is rejected with a
missing-primary-key error.  No check in schema_info.py lines 288-327 reads
the table's primary key. -/
theorem validate_true_accepts_table_without_primary_key :
    make_sqlalchemy_schema_info (fun f => py_startswith f "out_")
        ⟨[⟨"Animal", true, ["name", "uuid"]⟩]⟩ [] "postgresql"
        [("Animal", TableValue.table ⟨["name", "uuid"], []⟩)] [] true
      = .ok ⟨⟨[⟨"Animal", true, ["name", "uuid"]⟩]⟩, [], "postgresql",
          [("Animal", TableValue.table ⟨["name", "uuid"], []⟩)], []⟩ := by
  decide

/-- Claim C3 as amended (proved): construction performs no primary-key check
at all — stripping every table's primary key never changes whether
construction succeeds, nor which error it reports; the result differs only in
carrying the stripped tables. -/
theorem validation_ignores_primary_keys (ivf : String → Bool)
    (schema : GraphQLSchema) (hints : List (String × String)) (dialect : String)
    (tables : List (String × TableValue))
    (joins : List (String × List (String × DirectJoinDescriptor)))
    (validate : Bool) :
    make_sqlalchemy_schema_info ivf schema hints dialect
        (strip_primary_keys tables) joins validate
      = (make_sqlalchemy_schema_info ivf schema hints dialect tables joins validate).map
          (fun _ => ⟨schema, hints, dialect, strip_primary_keys tables, joins⟩) := by
  cases validate with
  | false => rfl
  | true =>
    rw [make_validate_eq, make_validate_eq, check_violations_strip]
    cases check_violations ivf tables joins schema.type_map with
    | nil => rfl
    | cons v vs => rfl

/-- Claim C4, counterexample: a `QueryPlanningSchemaInfo` whose
`pagination_keys` names the vertex `Bogus`, absent from the schema graph, is
constructed without any error (the dataclass performs no validation), and the
claim's name-resolution property indeed fails on the result — refuting the
claim that construction fails with an unknown-vertex error. -/
theorem query_planning_schema_info_accepts_unknown_vertex :
    QueryPlanningSchemaInfo.init ⟨[]⟩ [] ⟨["Animal"], []⟩ ⟨[("Animal", 4)]⟩
        [("Bogus", "uuid")] [] []
      = .ok ⟨⟨[]⟩, [], ⟨["Animal"], []⟩, ⟨[("Animal", 4)]⟩, [("Bogus", "uuid")], [], []⟩
    ∧ query_planning_names_resolve
        ⟨⟨[]⟩, [], ⟨["Animal"], []⟩, ⟨[("Animal", 4)]⟩, [("Bogus", "uuid")], [], []⟩
      = false := by
  exact ⟨rfl, by decide⟩

/-- Claim C4 as amended (proved): assembling a `QueryPlanningSchemaInfo`
enforces nothing — the dataclass constructor unconditionally succeeds and
stores its seven arguments as given, whether or not the names in
`pagination_keys`, `uuid4_fields` and `edge_constraints` resolve in
`schema_graph`. -/
theorem query_planning_schema_info_no_validation (schema : GraphQLSchema)
    (hints : List (String × String)) (schema_graph : SchemaGraph)
    (statistics : Statistics) (pagination_keys : List (String × String))
    (uuid4_fields : List (String × List String))
    (edge_constraints : List (String × List EdgeConstraint)) :
    QueryPlanningSchemaInfo.init schema hints schema_graph statistics
        pagination_keys uuid4_fields edge_constraints
      = .ok ⟨schema, hints, schema_graph, statistics, pagination_keys,
          uuid4_fields, edge_constraints⟩ :=
  rfl

lemma lookup_append_none {V : Type} (l1 l2 : List (String × V)) (k : String)
    (h : l1.lookup k = none) : (l1 ++ l2).lookup k = l2.lookup k := by
  induction l1 with
  | nil => rfl
  | cons p rest ih =>
    cases p with
    | mk k0 v =>
      simp only [List.cons_append, List.lookup] at h ⊢
      by_cases hk : (k == k0) = true
      · simp [hk] at h
      · simp only [Bool.not_eq_true] at hk
        simp only [hk] at h ⊢
        exact ih h

lemma lookup_none_of_first_overlap_none {V : Type} (mt nd : List (String × V))
    (h : first_overlap mt nd = none) : ∀ p ∈ nd, mt.lookup p.1 = none := by
  induction nd with
  | nil => intro p hp; cases hp
  | cons q rest ih =>
    intro p hp
    cases q with
    | mk key value =>
      simp only [first_overlap] at h
      cases hl : mt.lookup key with
      | some w => rw [hl] at h; simp at h
      | none =>
        rw [hl] at h
        rcases List.mem_cons.mp hp with rfl | hp2
        · exact hl
        · exact ih h p hp2

lemma merge_loop_error_of_first_overlap {V : Type} (reprV : V → String)
    (mt nd : List (String × V)) :
    ∀ (result : List (String × V)) (k : String) (v0 v : V),
      first_overlap mt nd = some (k, v0, v) →
      merge_loop reprV mt result nd
        = .error (assertion_error ("Overlapping key \"" ++ k
            ++ "\" found in dicts that are supposed to not overlap. Values: "
            ++ reprV v0 ++ " " ++ reprV v)) := by
  induction nd with
  | nil => intro result k v0 v h; simp [first_overlap] at h
  | cons p rest ih =>
    intro result k v0 v h
    cases p with
    | mk key value =>
      simp only [first_overlap] at h
      cases hl : mt.lookup key with
      | some w =>
        rw [hl] at h
        simp only [Option.some.injEq, Prod.mk.injEq] at h
        obtain ⟨rfl, rfl, rfl⟩ := h
        simp [merge_loop, hl]
      | none =>
        rw [hl] at h
        simp only [merge_loop, hl]
        exact ih _ k v0 v h

lemma merge_loop_ok_of_disjoint {V : Type} (reprV : V → String)
    (mt nd : List (String × V)) :
    ∀ result : List (String × V),
      (∀ p ∈ nd, mt.lookup p.1 = none) →
      (nd.map Prod.fst).Nodup →
      (∀ p ∈ nd, result.lookup p.1 = none) →
      merge_loop reprV mt result nd = .ok (result ++ nd) := by
  induction nd with
  | nil => intro result _ _ _; simp [merge_loop]
  | cons p rest ih =>
    intro result hmt hnd hres
    cases p with
    | mk key value =>
      have hl : mt.lookup key = none := hmt (key, value) (List.mem_cons_self _ _)
      have hr : result.lookup key = none := hres (key, value) (List.mem_cons_self _ _)
      simp only [merge_loop, hl]
      have hset : dict_setitem result key value = result ++ [(key, value)] := by
        simp [dict_setitem, hr]
      rw [hset]
      have hkey_not : key ∉ rest.map Prod.fst := by
        simp only [List.map_cons, List.nodup_cons] at hnd
        exact hnd.1
      have hnd2 : (rest.map Prod.fst).Nodup := by
        simp only [List.map_cons, List.nodup_cons] at hnd
        exact hnd.2
      have hres2 : ∀ p ∈ rest, (result ++ [(key, value)]).lookup p.1 = none := by
        intro p hp
        rw [lookup_append_none _ _ _ (hres p (List.mem_cons_of_mem _ hp))]
        have hne : p.1 ≠ key := by
          intro hcontra
          exact hkey_not (hcontra ▸ List.mem_map_of_mem Prod.fst hp)
        have hbeq : (p.1 == key) = false := beq_eq_false_iff_ne.mpr hne
        simp [List.lookup, hbeq]
      rw [ih (result ++ [(key, value)])
        (fun p hp => hmt p (List.mem_cons_of_mem _ hp)) hnd2 hres2]
      simp

/-- Claim C6 (confirmed): merging the synthesized parameters with the
caller's map via `merge_non_overlapping_dicts` is non-destructive.  If some
key of `new_data` already occurs in `merge_target`, the merge raises the
collision AssertionError for the first such key, naming the key and both
values; if the key sets are disjoint, it returns exactly the union of the two
maps (`merge_target ++ new_data` — lookups agree with either input on its own
keys).  Both inputs are left unchanged in either case: the Python code copies
`merge_target` and only writes into the copy, which this pure model renders
by construction. -/
theorem merge_non_overlapping_dicts_spec {V : Type} (reprV : V → String)
    (merge_target new_data : List (String × V)) :
    (∀ (k : String) (v0 v : V), first_overlap merge_target new_data = some (k, v0, v) →
        merge_non_overlapping_dicts reprV merge_target new_data
          = .error (assertion_error ("Overlapping key \"" ++ k
              ++ "\" found in dicts that are supposed to not overlap. Values: "
              ++ reprV v0 ++ " " ++ reprV v)))
    ∧ (first_overlap merge_target new_data = none →
        (new_data.map Prod.fst).Nodup →
        merge_non_overlapping_dicts reprV merge_target new_data
          = .ok (merge_target ++ new_data)) := by
  constructor
  · intro k v0 v h
    exact merge_loop_error_of_first_overlap reprV merge_target new_data
      merge_target k v0 v h
  · intro h hnd
    exact merge_loop_ok_of_disjoint reprV merge_target new_data merge_target
      (lookup_none_of_first_overlap_none merge_target new_data h) hnd
      (lookup_none_of_first_overlap_none merge_target new_data h)

/-- Witness for claim C6: a disjoint merge returns the union, at concrete
parameter maps. -/
theorem merge_non_overlapping_dicts_spec_witness :
    merge_non_overlapping_dicts (fun v => v) [("a", "1")] [("b", "2")]
      = .ok ([("a", "1")] ++ [("b", "2")]) :=
  (merge_non_overlapping_dicts_spec (fun v => v) [("a", "1")] [("b", "2")]).2
    (by decide) (by decide)

/-- Claim C2, counterexample: in the exact scenario of the claim (root vertex
`Animal`, estimated count 4, `page_size=1`, empty caller parameters), the
planner does not produce 4 sub-queries — it raises `NotImplementedError`, as
`test_basic_pagination` asserts; and even the reference output the test says
an implemented planner should return (`expected_query_list`) contains 2
sub-queries, not 4. -/
theorem paginate_query_basic_scenario_not_implemented :
    paginate_query test_schema_graph test_statistics test_ast [] 1
      = .error ⟨"NotImplementedError", ""⟩
    ∧ expected_query_list.length = 2 :=
  ⟨rfl, rfl⟩

/-- Claim C2 as amended (proved): the reference output of the scenario has
exactly two sub-queries over root vertex `Animal`.  Sub-query 1 adds the
single filter `uuid < $_paged_upper_param_on_Animal_uuid` and sub-query 2
adds only `uuid >= $_paged_lower_param_on_Animal_uuid` (no upper cut); each
binds its one synthesized parameter to the boundary
`40000000-0000-0000-0000-000000000000`, which is the quarter point of the
UUID space (`2 ^ 128 / 4` rendered as a UUID), i.e. the first cut of a
4-way uniform interpolation. -/
theorem expected_query_list_reference_shape :
    expected_query_list.length = 2
    ∧ expected_query_list.map (fun qp => qp.query.root_vertex) = ["Animal", "Animal"]
    ∧ expected_query_list.map (fun qp => qp.query.filters)
        = [[("uuid", "<", "_paged_upper_param_on_Animal_uuid")],
           [("uuid", ">=", "_paged_lower_param_on_Animal_uuid")]]
    ∧ expected_query_list.map (fun qp => qp.parameters)
        = [[("_paged_upper_param_on_Animal_uuid", first_uuid_cut)],
           [("_paged_lower_param_on_Animal_uuid", first_uuid_cut)]]
    ∧ uuid_of_nat (2 ^ 128 / 4) = first_uuid_cut := by
  refine ⟨rfl, rfl, rfl, rfl, by decide⟩

lemma merge_loop_error_assertion {V : Type} (reprV : V → String)
    (mt : List (String × V)) (nd : List (String × V)) :
    ∀ (result : List (String × V)) (e : PyException),
      merge_loop reprV mt result nd = .error e → e.excType = "AssertionError" := by
  induction nd with
  | nil => intro result e h; simp [merge_loop] at h
  | cons p rest ih =>
    intro result e h
    cases p with
    | mk key value =>
      simp only [merge_loop] at h
      cases hl : mt.lookup key with
      | some w =>
        rw [hl] at h
        simp only [Except.error.injEq] at h
        subst h
        rfl
      | none =>
        rw [hl] at h
        exact ih _ e h

/-- Claim C8, counterexample: two distinct violation kinds — a missing table
and a missing column — are raised as errors of the same exception type
(`AssertionError`), differing only in their message text; the claim that any
two distinct violation kinds differ in type/variant is false. -/
theorem distinct_violations_share_exception_type :
    make_sqlalchemy_schema_info (fun f => py_startswith f "out_")
        ⟨[⟨"Species", true, ["name"]⟩]⟩ [] "postgresql" [] [] true
      = .error ⟨"AssertionError", "Table for type Species not found"⟩
    ∧ make_sqlalchemy_schema_info (fun f => py_startswith f "out_")
        ⟨[⟨"Species", true, ["name"]⟩]⟩ [] "postgresql"
        [("Species", TableValue.table ⟨[], []⟩)] [] true
      = .error ⟨"AssertionError",
          "Table for type Species has no column for property field name"⟩
    ∧ (PyException.mk "AssertionError" "Table for type Species not found").excType
      = (PyException.mk "AssertionError"
          "Table for type Species has no column for property field name").excType
    ∧ (PyException.mk "AssertionError" "Table for type Species not found").message
      ≠ (PyException.mk "AssertionError"
          "Table for type Species has no column for property field name").message := by
  refine ⟨by decide, by decide, rfl, by decide⟩

/-- Claim C8 as amended (proved): every error the schema-binding validation
raises, and every collision error `merge_non_overlapping_dicts` raises, is
the one shared exception type `AssertionError`; the error kinds of the
taxonomy are distinguishable only by message text, not as distinct
types/variants (and no missing-primary-key or unknown-vertex/edge error is
raised anywhere). -/
theorem all_validation_errors_are_assertion_errors {V : Type} (reprV : V → String)
    (ivf : String → Bool) (schema : GraphQLSchema) (hints : List (String × String))
    (dialect : String) (tables : List (String × TableValue))
    (joins : List (String × List (String × DirectJoinDescriptor)))
    (merge_target new_data : List (String × V)) (e1 e2 : PyException) :
    (make_sqlalchemy_schema_info ivf schema hints dialect tables joins true
        = .error e1 → e1.excType = "AssertionError")
    ∧ (merge_non_overlapping_dicts reprV merge_target new_data
        = .error e2 → e2.excType = "AssertionError") := by
  constructor
  · intro h
    rw [make_validate_eq] at h
    cases hv : check_violations ivf tables joins schema.type_map with
    | nil => rw [hv] at h; simp at h
    | cons v vs =>
      rw [hv] at h
      simp only [Except.error.injEq] at h
      subst h
      rfl
  · exact merge_loop_error_assertion reprV merge_target new_data merge_target e2

/-- Witness for the amended claim C8, at a binding whose violation is a
missing table. -/
theorem all_validation_errors_are_assertion_errors_witness :
    (PyException.mk "AssertionError" "Table for type Dog not found").excType
      = "AssertionError" :=
  (all_validation_errors_are_assertion_errors (fun v : String => v)
      (fun f => py_startswith f "out_") ⟨[⟨"Dog", true, []⟩]⟩ [] "mysql" [] [] [] []
      ⟨"AssertionError", "Table for type Dog not found"⟩ ⟨"", ""⟩).1 (by decide)

/-- Claim C9 (confirmed): if some eligible (object or interface, non-root,
non-builtin) type of the schema has a `vertex_name_to_table` entry whose
value is not a sqlalchemy Table, construction with `validate=true` fails; and
the error raised for that violation — the one reported whenever it is the
first violation in traversal order — names that exact type and the wrong
value's Python type, per schema_info.py lines 304-308. -/
theorem wrong_table_type_entry_fails_validation (ivf : String → Bool)
    (schema : GraphQLSchema) (hints : List (String × String)) (dialect : String)
    (tables : List (String × TableValue))
    (joins : List (String × List (String × DirectJoinDescriptor)))
    (gt : GraphQLTypeEntry) (py : String)
    (hmem : gt ∈ schema.type_map) (helig : is_mapped_type gt = true)
    (hlk : tables.lookup gt.name = some (TableValue.other py)) :
    (∃ e, make_sqlalchemy_schema_info ivf schema hints dialect tables joins true
        = .error e)
    ∧ ((check_violations ivf tables joins schema.type_map).head?
          = some (Violation.wrong_table_type gt.name py) →
        make_sqlalchemy_schema_info ivf schema hints dialect tables joins true
          = .error (assertion_error
              ("Table for type " ++ gt.name ++ " has wrong type " ++ py))) := by
  have hmem_v : Violation.wrong_table_type gt.name py
      ∈ check_violations ivf tables joins schema.type_map := by
    unfold check_violations
    exact List.mem_flatMap.mpr ⟨gt, hmem, by simp [type_violations, helig, hlk]⟩
  constructor
  · rw [make_validate_eq]
    cases hv : check_violations ivf tables joins schema.type_map with
    | nil => rw [hv] at hmem_v; cases hmem_v
    | cons v vs => exact ⟨_, rfl⟩
  · intro hhead
    rw [make_validate_eq]
    cases hv : check_violations ivf tables joins schema.type_map with
    | nil => rw [hv] at hhead; cases hhead
    | cons v vs =>
      rw [hv] at hhead
      simp only [List.head?_cons, Option.some.injEq] at hhead
      subst hhead
      rfl

/-- Witness for claim C9, at a binding whose single type's table entry is a
Python `list`. -/
theorem wrong_table_type_entry_fails_validation_witness :
    make_sqlalchemy_schema_info (fun f => py_startswith f "out_")
        ⟨[⟨"Cat", true, []⟩]⟩ [] "mssql" [("Cat", TableValue.other "list")] [] true
      = .error (assertion_error
          ("Table for type " ++ "Cat" ++ " has wrong type " ++ "list")) :=
  (wrong_table_type_entry_fails_validation (fun f => py_startswith f "out_")
      ⟨[⟨"Cat", true, []⟩]⟩ [] "mssql" [("Cat", TableValue.other "list")] []
      ⟨"Cat", true, []⟩ "list" (by decide) (by decide) (by decide)).2 (by decide)

/-- Claim C10 (code bug): `TriState.__bool__` does raise ValueError on every
instance, but the constructor does not accept only `True`, `False` and
`None`: its membership test uses Python `==`, under which `1 == True` and
`0 == False`, so `TriState(1)` and `TriState(0)` are accepted and store the
ints `1` and `0` — contradicting the code's own assertion message
"Tristate value must be either True, False, or None." (which `TriState(2)`
and `TriState("true")` do correctly trigger). -/
theorem tristate_accepts_int_one_and_bool_raises :
    TriState.init (PyValue.int 1) = .ok ⟨PyValue.int 1⟩
    ∧ TriState.init (PyValue.int 0) = .ok ⟨PyValue.int 0⟩
    ∧ TriState.init (PyValue.int 2)
        = .error (assertion_error "Tristate value must be either True, False, or None.")
    ∧ TriState.init (PyValue.str "true")
        = .error (assertion_error "Tristate value must be either True, False, or None.")
    ∧ ∀ t : TriState, TriState.bool t
        = .error ⟨"ValueError", "Cannot implicitly convert Tristate to a boolean."⟩ := by
  refine ⟨by decide, by decide, by decide, by decide, fun t => rfl⟩
